import Mathlib

/-!
Shallow embedding of the identity-linking and state-synchronization relay
of src/agent/agent.js: the Mongo user collection, the in-memory linkCodes
table, the web-socket UI message handler, the gateway message handler, the
broadcast fan-out and the signature verifier.  Wall-clock times are Nat
milliseconds, Date.now() and Math.random() outcomes are explicit
parameters, and the fallible storage call of the LOGIN handler is an
explicit Bool parameter.
-/

namespace AlonClawd

/-- One todo entry of the Mongo UserSchema (id, text, done). -/
structure Task where
  id : Nat
  text : String
  done : Bool
deriving DecidableEq

/-- One record of the Mongo User collection (wallet, telegramId, todos). -/
structure UserRecord where
  wallet : String
  telegramId : Option String
  todos : List Task
deriving DecidableEq

/-- The User collection, ordered as stored. -/
abbrev UserDB := List UserRecord

/-- One value of the in-memory linkCodes table (username, expires). -/
structure LinkData where
  username : String
  expires : Nat
deriving DecidableEq

/-- The linkCodes table: keys are the six-digit code strings. -/
abbrev LinkCodes := List (String × LinkData)

/-- The mutable hub state touched by the handlers: the User collection and
the linkCodes table. -/
structure HubState where
  db : UserDB
  linkCodes : LinkCodes
deriving DecidableEq

/-- User.findOne with a wallet filter: first record whose wallet matches. -/
def findOne : UserDB → String → Option UserRecord
  | [], _ => none
  | u :: us, w => if u.wallet = w then some u else findOne us w

/-- User.findOne with a telegramId filter: first record whose telegramId
matches. -/
def findByTelegramId : UserDB → String → Option UserRecord
  | [], _ => none
  | u :: us, tid => if u.telegramId = some tid then some u else findByTelegramId us tid

/-- User.findOneAndUpdate setting telegramId with upsert, as run by the
/link handler: updates the first record of the wallet, or creates one. -/
def setTelegramIdUpsert : UserDB → String → String → UserDB
  | [], w, tid => [{ wallet := w, telegramId := some tid, todos := [] }]
  | u :: us, w, tid =>
    if u.wallet = w then { u with telegramId := some tid } :: us
    else u :: setTelegramIdUpsert us w tid

/-- User.findOneAndUpdate pushing one todo with upsert (ADD_TODO handler). -/
def pushTodoUpsert : UserDB → String → Task → UserDB
  | [], w, todo => [{ wallet := w, telegramId := none, todos := [todo] }]
  | u :: us, w, todo =>
    if u.wallet = w then { u with todos := u.todos ++ [todo] } :: us
    else u :: pushTodoUpsert us w todo

/-- User.findOneAndUpdate pushing one todo without upsert (gateway /todo
handler). -/
def pushTodoNoUpsert : UserDB → String → Task → UserDB
  | [], _, _ => []
  | u :: us, w, todo =>
    if u.wallet = w then { u with todos := u.todos ++ [todo] } :: us
    else u :: pushTodoNoUpsert us w todo

/-- user.save() after mutating a loaded document: replaces the record at
the position findOne located it. -/
def saveUser : UserDB → UserRecord → UserDB
  | [], _ => []
  | v :: vs, u => if v.wallet = u.wallet then u :: vs else v :: saveUser vs u

/-- user ? user.todos : [] as evaluated by GET_TODOS and broadcastState. -/
def listTasks (db : UserDB) (w : String) : List Task :=
  match findOne db w with
  | some u => u.todos
  | none => []

/-- user.todos.find matching on the task id (TOGGLE_TODO handler). -/
def findTask : List Task → Nat → Option Task
  | [], _ => none
  | t :: ts, i => if t.id = i then some t else findTask ts i

/-- Flipping done on the task user.todos.find located, that is on the
first task carrying the id; later tasks are untouched. -/
def toggleFirst : List Task → Nat → List Task
  | [], _ => []
  | t :: ts, i =>
    if t.id = i then { t with done := !t.done } :: ts
    else t :: toggleFirst ts i

/-- The TOGGLE_TODO handler body: load the record, find the task, flip its
done flag and save; the Bool records whether a save (and hence a
broadcast) happened. -/
def toggleTodoOp (db : UserDB) (wallet : String) (i : Nat) : UserDB × Bool :=
  match findOne db wallet with
  | none => (db, false)
  | some user =>
    match findTask user.todos i with
    | none => (db, false)
    | some _ => (saveUser db { user with todos := toggleFirst user.todos i }, true)

/-- linkCodes[code] lookup. -/
def lookupCode : LinkCodes → String → Option LinkData
  | [], _ => none
  | (c, d) :: rest, code => if c = code then some d else lookupCode rest code

/-- delete linkCodes[code]. -/
def eraseCode : LinkCodes → String → LinkCodes
  | [], _ => []
  | (c, d) :: rest, code =>
    if c = code then eraseCode rest code else (c, d) :: eraseCode rest code

/-- linkCodes[code] = data assignment: object keys stay unique, so a
colliding code silently overwrites the old entry. -/
def insertCode (codes : LinkCodes) (code : String) (d : LinkData) : LinkCodes :=
  (code, d) :: eraseCode codes code

/-- The lazy sweep run on each issuance: delete every entry whose expires
lies strictly before now. -/
def sweepCodes (now : Nat) : LinkCodes → LinkCodes
  | [] => []
  | (c, d) :: rest =>
    if d.expires < now then sweepCodes now rest else (c, d) :: sweepCodes now rest

/-- The GENERATE_LINK_CODE table update: store the fresh code with expiry
now plus five minutes, then sweep expired entries. -/
def issueLinkCode (now : Nat) (code wallet : String) (codes : LinkCodes) : LinkCodes :=
  sweepCodes now (insertCode codes code { username := wallet, expires := now + 5 * 60 * 1000 })

/-- The rejection reply of the /link handler. -/
def linkRejection : String :=
  "❌ Invalid or expired link code. Please generate a new code from the Web UI."

/-- The /link command body: look the code up; when present and unexpired,
set the owner record telegramId (upsert) and delete the code, replying
with the welcome text; otherwise reply with the rejection text and leave
the state untouched.  The second component lists the (chatId, text)
messages sent to the gateway. -/
def handleLink (now : Nat) (welcome : String) (telegramId code : String)
    (st : HubState) : HubState × List (String × String) :=
  match lookupCode st.linkCodes code with
  | some linkData =>
    if now < linkData.expires then
      ({ db := setTelegramIdUpsert st.db linkData.username telegramId,
         linkCodes := eraseCode st.linkCodes code },
       [(telegramId, welcome)])
    else
      (st, [(telegramId, linkRejection)])
  | none => (st, [(telegramId, linkRejection)])

/-- One live web-socket client as seen by the fan-out loop: its readyState
and the ws.username field. -/
structure Client where
  readyStateOpen : Bool
  username : Option String
deriving DecidableEq

/-- Outbound messages of the UI protocol. -/
inductive Outbound where
  | loginSuccess (username : String) (todos : List Task)
  | loginFail (message : String)
  | linkCode (code : String)
  | stateUpdate (todos : List Task)
  | chatIncoming (text fromLabel sender : String)
deriving DecidableEq

/-- hqServer.clients.forEach sending a payload to every open client whose
username matches. -/
def sendToClients (payload : Outbound) (uname : String) : List Client → List (Client × Outbound)
  | [] => []
  | client :: rest =>
    if client.readyStateOpen = true ∧ client.username = some uname then
      (client, payload) :: sendToClients payload uname rest
    else sendToClients payload uname rest

/-- broadcastState: on a null username nothing is sent; otherwise the
current todos of the wallet are fetched and a STATE_UPDATE is delivered to
every open client bound to that wallet. -/
def broadcastState (db : UserDB) (username : Option String) (clients : List Client) :
    List (Client × Outbound) :=
  match username with
  | none => []
  | some uname => sendToClients (Outbound.stateUpdate (listTasks db uname)) uname clients

/-- The bs58 alphabet. -/
def base58Alphabet : List Char :=
  "123456789ABCDEFGHJKLMNPQRSTUVWXYZabcdefghijkmnopqrstuvwxyz".toList

/-- Value of one base-58 digit, none on a character outside the alphabet. -/
def base58DigitValue (c : Char) : Option Nat :=
  base58Alphabet.findIdx? (fun a => a == c)

/-- Big-endian base-58 accumulation; none as soon as a character is not in
the alphabet (bs58.decode throws there). -/
def bs58DecodeNumAux : Nat → List Char → Option Nat
  | acc, [] => some acc
  | acc, c :: rest =>
    match base58DigitValue c with
    | some v => bs58DecodeNumAux (acc * 58 + v) rest
    | none => none

/-- Big-endian bytes of a Nat (empty on zero); the first argument is
fuel, always at least the number, so the recursion is structural. -/
def natToBytesFuel : Nat → Nat → List Nat
  | _, 0 => []
  | 0, _ + 1 => []
  | fuel + 1, n + 1 => natToBytesFuel fuel ((n + 1) / 256) ++ [(n + 1) % 256]

/-- Big-endian bytes of a Nat (empty on zero). -/
def natToBytes (n : Nat) : List Nat :=
  natToBytesFuel n n

/-- Leading base-58 zero digits, each contributing one leading zero byte. -/
def countLeadingOnes : List Char → Nat
  | [] => 0
  | c :: rest => if c = '1' then countLeadingOnes rest + 1 else 0

/-- bs58.decode: throws (error) on a character outside the alphabet,
otherwise yields one zero byte per leading one digit followed by the
big-endian bytes of the accumulated number. -/
def bs58Decode (s : String) : Except String (List Nat) :=
  match bs58DecodeNumAux 0 s.toList with
  | none => Except.error "Non-base58 character"
  | some n => Except.ok (List.replicate (countLeadingOnes s.toList) 0 ++ natToBytes n)

/-- Value of one hexadecimal digit character. -/
def hexDigitValue (c : Char) : Option Nat :=
  if 48 ≤ c.toNat ∧ c.toNat ≤ 57 then some (c.toNat - 48)
  else if 97 ≤ c.toNat ∧ c.toNat ≤ 102 then some (c.toNat - 97 + 10)
  else if 65 ≤ c.toNat ∧ c.toNat ≤ 70 then some (c.toNat - 65 + 10)
  else none

/-- Buffer.from(s, hex): decodes pairs of hexadecimal digits and stops
without throwing at the first invalid pair or at a trailing odd digit. -/
def nodeHexBytes : List Char → List Nat
  | c1 :: c2 :: rest =>
    match hexDigitValue c1, hexDigitValue c2 with
    | some hi, some lo => (16 * hi + lo) :: nodeHexBytes rest
    | _, _ => []
  | _ => []

/-- UTF-8 bytes of one character, as TextEncoder().encode produces them. -/
def utf8EncodeCharNat (c : Char) : List Nat :=
  let n := c.toNat
  if n < 0x80 then [n]
  else if n < 0x800 then [0xC0 ||| (n >>> 6), 0x80 ||| (n &&& 0x3F)]
  else if n < 0x10000 then
    [0xE0 ||| (n >>> 12), 0x80 ||| ((n >>> 6) &&& 0x3F), 0x80 ||| (n &&& 0x3F)]
  else
    [0xF0 ||| (n >>> 18), 0x80 ||| ((n >>> 12) &&& 0x3F),
     0x80 ||| ((n >>> 6) &&& 0x3F), 0x80 ||| (n &&& 0x3F)]

/-- TextEncoder().encode of a string. -/
def utf8Bytes (s : String) : List Nat :=
  s.data.flatMap utf8EncodeCharNat

/-- nacl.sign.detached.verify: throws on a signature that is not 64 bytes
or a public key that is not 32 bytes, otherwise runs the ed25519 check,
abstracted here as the impl parameter. -/
def naclDetachedVerify (impl : List Nat → List Nat → List Nat → Bool)
    (message signature publicKey : List Nat) : Except String Bool :=
  if signature.length ≠ 64 then Except.error "bad signature size"
  else if publicKey.length ≠ 32 then Except.error "bad public key size"
  else Except.ok (impl message signature publicKey)

/-- The body of the try block of verifySolanaSignature: decode the key
(may throw), hex-decode the signature (total), UTF-8 encode the message,
then call nacl (may throw on sizes). -/
def verifySolanaSignatureE (impl : List Nat → List Nat → List Nat → Bool)
    (publicKeyStr signatureStr messageStr : String) : Except String Bool :=
  match bs58Decode publicKeyStr with
  | Except.error e => Except.error e
  | Except.ok publicKey =>
    naclDetachedVerify impl (utf8Bytes messageStr) (nodeHexBytes signatureStr.toList) publicKey

/-- verifySolanaSignature: the catch block turns every thrown error into
false, so the result is always a plain boolean. -/
def verifySolanaSignature (impl : List Nat → List Nat → List Nat → Bool)
    (publicKeyStr signatureStr messageStr : String) : Bool :=
  match verifySolanaSignatureE impl publicKeyStr signatureStr messageStr with
  | Except.ok b => b
  | Except.error _ => false

/-- A trivially accepting ed25519 core, used to instantiate witnesses. -/
def alwaysVerify : List Nat → List Nat → List Nat → Bool :=
  fun _ _ _ => true

/-- One UI connection, carrying the ws.username field (null until a
successful LOGIN verification). -/
structure Session where
  username : Option String
deriving DecidableEq

/-- Inbound UI protocol messages. -/
inductive UIMsg where
  | login (publicKey signature message : String)
  | generateLinkCode
  | addTodo (text : String)
  | toggleTodo (id : Nat)
  | getTodos
  | sendChat (text : String)
deriving DecidableEq

/-- True exactly on a LOGIN message. -/
def isLoginMsg : UIMsg → Bool
  | UIMsg.login _ _ _ => true
  | _ => false

/-- Everything one UI message handler invocation produces: the new
session, the new hub state, the replies sent to the requesting connection,
the wallet broadcastState was called on, and the (chatId, text) messages
forwarded to the gateway. -/
structure UIResult where
  sess : Session
  hub : HubState
  replies : List Outbound
  broadcastWallet : Option String
  gatewayOut : List (String × String)
deriving DecidableEq

/-- The LOGIN_FAIL text of the database catch branch. -/
def dbErrorMessage : String := "Database Error. Check server logs."

/-- The LOGIN_FAIL text of the signature branch. -/
def invalidSignatureMessage : String := "Invalid Signature"

/-- The hqServer per-message handler of agent.js.  now and freshId stand
for the Date.now() readings, freshCode for the random six-digit code,
dbOk=false for the user lookup/creation of LOGIN throwing a storage
error (the inner catch replies LOGIN_FAIL), chatReply for the askAlon
result, gatewayConnected/gatewayOpen for gatewayWs being non-null and in
readyState OPEN. -/
def handleUIMessage (impl : List Nat → List Nat → List Nat → Bool)
    (now freshId : Nat) (freshCode : String) (dbOk : Bool) (chatReply : String)
    (gatewayConnected gatewayOpen : Bool)
    (sess : Session) (st : HubState) (msg : UIMsg) : UIResult :=
  match msg with
  | UIMsg.login publicKey signature msgAuth =>
    if verifySolanaSignature impl publicKey signature msgAuth then
      let sess := { sess with username := some publicKey }
      if dbOk then
        match findOne st.db publicKey with
        | some user => ⟨sess, st, [Outbound.loginSuccess publicKey user.todos], none, []⟩
        | none =>
          ⟨sess, { st with db := st.db ++ [{ wallet := publicKey, telegramId := none, todos := [] }] },
           [Outbound.loginSuccess publicKey []], none, []⟩
      else
        ⟨sess, st, [Outbound.loginFail dbErrorMessage], none, []⟩
    else
      ⟨sess, st, [Outbound.loginFail invalidSignatureMessage], none, []⟩
  | msg =>
    match sess.username with
    | none => ⟨sess, st, [], none, []⟩
    | some username =>
      match msg with
      | UIMsg.login _ _ _ => ⟨sess, st, [], none, []⟩
      | UIMsg.generateLinkCode =>
        ⟨sess, { st with linkCodes := issueLinkCode now freshCode username st.linkCodes },
         [Outbound.linkCode freshCode], none, []⟩
      | UIMsg.addTodo text =>
        ⟨sess, { st with db := pushTodoUpsert st.db username { id := freshId, text := text, done := false } },
         [], some username, []⟩
      | UIMsg.toggleTodo i =>
        let result := toggleTodoOp st.db username i
        ⟨sess, { st with db := result.1 }, [],
         if result.2 then some username else none, []⟩
      | UIMsg.getTodos =>
        ⟨sess, st, [Outbound.stateUpdate (listTasks st.db username)], none, []⟩
      | UIMsg.sendChat text =>
        let tid :=
          match findOne st.db username with
          | some user => user.telegramId
          | none => none
        let forwardUser :=
          match tid with
          | some t => if gatewayConnected && gatewayOpen then [(t, text)] else []
          | none => []
        let forwardReply :=
          match tid with
          | some t => if gatewayConnected then [(t, chatReply)] else []
          | none => []
        ⟨sess, st, [Outbound.chatIncoming chatReply "Alon" "Alon"], none,
         forwardUser ++ forwardReply⟩

/-- Everything one gateway message handler invocation produces: the new
hub state, the (chatId, text) messages sent back through the gateway, the
wallet broadcastState was called on, and the CHAT_INCOMING fan-outs keyed
by the wallet they are mirrored to. -/
structure GatewayResult where
  hub : HubState
  gatewayOut : List (String × String)
  broadcastWallet : Option String
  uiChat : List (String × Outbound)
deriving DecidableEq

/-- The hardcoded admin wallet of the /molt command. -/
def adminWallet : String := "4QUk9RNqFiFiwZECiczBZp8cDLvB6fViZtpAsiJaxNc6"

/-- The reply sent on /todo from an unlinked sender. -/
def linkFirstMessage : String := "🔒 Please link your wallet first using /link command."

/-- The reply sent on /molt from a non-admin sender. -/
def accessDeniedMessage : String := "🚫 access denied. admin wallet only."

/-- Character-list prefix test, the semantics of the JavaScript
startsWith call on the extracted text. -/
def listStartsWith : List Char → List Char → Bool
  | _, [] => true
  | [], _ :: _ => false
  | c :: cs, p :: ps => c == p && listStartsWith cs ps

/-- text.startsWith on whole strings. -/
def strStartsWith (s pre : String) : Bool :=
  listStartsWith s.data pre.data

/-- Dropping the first n characters of a string (the slice the handlers
build when they strip a command keyword). -/
def strDrop (s : String) (n : Nat) : String :=
  String.mk (s.data.drop n)

/-- JavaScript whitespace for trim purposes. -/
def isJsWhitespace (c : Char) : Bool :=
  c == ' ' || c == '\t' || c == '\n' || c == '\r'

/-- text.trim(): whitespace removed from both ends. -/
def strTrim (s : String) : String :=
  String.mk (((s.data.dropWhile isJsWhitespace).reverse.dropWhile isJsWhitespace).reverse)

/-- The gatewayWs per-message handler of agent.js after envelope
extraction.  telegramId and text are the extracted fields (empty strings
are falsy and drop the envelope); welcome, ackReply, aiReply and
moltReply stand for the askAlon/moltbook results and sender for the
envelope sender field. -/
def handleGatewayMessage (now freshId : Nat)
    (welcome ackReply aiReply moltReply sender : String)
    (telegramId text : String) (st : HubState) : GatewayResult :=
  if text = "" ∨ telegramId = "" then ⟨st, [], none, []⟩
  else
    let username :=
      match findByTelegramId st.db telegramId with
      | some user => some user.wallet
      | none => none
    if strStartsWith text "/molt " then
      if username ≠ some adminWallet then
        ⟨st, [(telegramId, accessDeniedMessage)], none, []⟩
      else
        ⟨st, [(telegramId, moltReply)], none, []⟩
    else if strStartsWith text "/link " then
      let code := strTrim (strDrop text 6)
      let r := handleLink now welcome telegramId code st
      ⟨r.1, r.2, none, []⟩
    else if strStartsWith text "/todo " then
      match username with
      | some uname =>
        let taskText := strTrim (strDrop text 6)
        let db := pushTodoNoUpsert st.db uname { id := freshId, text := taskText, done := false }
        ⟨{ st with db := db }, [(telegramId, ackReply)], some uname, []⟩
      | none => ⟨st, [(telegramId, linkFirstMessage)], none, []⟩
    else
      match username with
      | some uname =>
        ⟨st, [(telegramId, aiReply)], none,
         [(uname, Outbound.chatIncoming text "Telegram" sender),
          (uname, Outbound.chatIncoming aiReply "Alon" "Alon")]⟩
      | none => ⟨st, [(telegramId, aiReply)], none, []⟩

/-- The uniqueness property claimed for externalId: no two records of the
directory hold the same non-null telegramId under different wallets. -/
def externalIdUniqueProp (db : UserDB) : Prop :=
  ∀ u ∈ db, ∀ v ∈ db, u.telegramId ≠ none → u.telegramId = v.telegramId → u.wallet = v.wallet

instance (db : UserDB) : Decidable (externalIdUniqueProp db) := by
  unfold externalIdUniqueProp
  infer_instance

/-- Witness state for the single-use claim: one live code owned by A. -/
def c1State : HubState :=
  { db := [], linkCodes := [("123456", { username := "A", expires := 100 })] }

/-- Reachable state refuting externalId uniqueness: A links from 555,
then B links from 555 with a second code. -/
def c3State0 : HubState := { db := [], linkCodes := issueLinkCode 0 "100001" "A" [] }

/-- State after the first redemption of the uniqueness trace. -/
def c3State1 : HubState := (handleLink 1 "hi" "555" "100001" c3State0).1

/-- Final state of the uniqueness trace: both A and B hold externalId 555. -/
def c3State2 : HubState :=
  (handleLink 3 "hi" "555" "100002"
    { db := c3State1.db, linkCodes := issueLinkCode 2 "100002" "B" c3State1.linkCodes }).1

/-- First ADD_TODO of the duplicate-id trace: both appends read the same
Date.now() value 7. -/
def c5Result1 : UIResult :=
  handleUIMessage alwaysVerify 0 7 "000000" true "r" true true
    { username := some "w" } { db := [], linkCodes := [] } (UIMsg.addTodo "a")

/-- Second ADD_TODO of the duplicate-id trace, at the same millisecond. -/
def c5Result2 : UIResult :=
  handleUIMessage alwaysVerify 0 7 "000000" true "r" true true
    c5Result1.sess c5Result1.hub (UIMsg.addTodo "b")

/-- Witness directory for the toggle claim: one task, id 5, not done. -/
def c6Db : UserDB := [{ wallet := "w", telegramId := none, todos := [⟨5, "a", false⟩] }]

/-- Directory with one linked user, for the empty-text /todo trace. -/
def c9Db : UserDB := [{ wallet := "w", telegramId := some "5", todos := [] }]

/-- ADD_TODO with the empty string from an authenticated session. -/
def c9UIStep : UIResult :=
  handleUIMessage alwaysVerify 0 7 "000000" true "r" true true
    { username := some "w" } { db := [], linkCodes := [] } (UIMsg.addTodo "")

/-- Gateway /todo whose remainder trims to the empty string, sent by the
linked external id 5. -/
def c9GatewayStep : GatewayResult :=
  handleGatewayMessage 0 7 "wl" "ack" "ai" "m" "s" "5" "/todo   "
    { db := c9Db, linkCodes := [] }

/- ------------------------------------------------------------------ -/
/- Helper lemmas                                                      -/
/- ------------------------------------------------------------------ -/

theorem lookupCode_eraseCode_self (codes : LinkCodes) (code : String) :
    lookupCode (eraseCode codes code) code = none := by
  induction codes with
  | nil => rfl
  | cons p rest ih =>
    obtain ⟨c, d⟩ := p
    by_cases h : c = code
    · simp [eraseCode, h, ih]
    · simp [eraseCode, h, lookupCode, ih]

theorem lookupCode_issueLinkCode (now : Nat) (code w : String) (codes : LinkCodes) :
    lookupCode (issueLinkCode now code w codes) code =
      some { username := w, expires := now + 5 * 60 * 1000 } := by
  have h : ¬ ((LinkData.mk w (now + 5 * 60 * 1000)).expires < now) := by
    simp
  simp [issueLinkCode, insertCode, sweepCodes, h, lookupCode]

theorem findOne_setTelegramIdUpsert (db : UserDB) (w tid : String) :
    ∃ u, findOne (setTelegramIdUpsert db w tid) w = some u ∧
      u.wallet = w ∧ u.telegramId = some tid := by
  induction db with
  | nil =>
    exact ⟨{ wallet := w, telegramId := some tid, todos := [] },
      by simp [setTelegramIdUpsert, findOne], rfl, rfl⟩
  | cons u us ih =>
    by_cases h : u.wallet = w
    · exact ⟨{ u with telegramId := some tid },
        by simp [setTelegramIdUpsert, h, findOne], h, rfl⟩
    · obtain ⟨v, hv, hw, ht⟩ := ih
      exact ⟨v, by simp [setTelegramIdUpsert, h, findOne, hv], hw, ht⟩

theorem mem_setTelegramIdUpsert_of_ne {db : UserDB} {w tid : String} :
    ∀ v ∈ setTelegramIdUpsert db w tid, v.wallet ≠ w → v ∈ db := by
  induction db with
  | nil =>
    intro v hv hne
    simp [setTelegramIdUpsert] at hv
    rw [hv] at hne
    simp at hne
  | cons u us ih =>
    intro v hv hne
    by_cases h : u.wallet = w
    · simp [setTelegramIdUpsert, h] at hv
      rcases hv with hv | hv
      · rw [hv] at hne; simp [h] at hne
      · exact List.mem_cons_of_mem u hv
    · simp [setTelegramIdUpsert, h] at hv
      rcases hv with hv | hv
      · rw [hv]; exact List.mem_cons_self u us
      · exact List.mem_cons_of_mem u (ih v hv hne)

/- ------------------------------------------------------------------ -/
/- Claims C1, C2, C3                                                  -/
/- ------------------------------------------------------------------ -/

/-- Claim C1: linking codes are single-use.  Redeeming an issued,
unexpired code via the /link handler succeeds exactly once: the first
redemption replies with the welcome text, binds the external identity to
the owner wallet and removes the code, all in one state transition, and
any later redemption of the same code, at any time, replies with the
rejection text and returns the state completely unchanged. -/
theorem claim_C1_link_code_single_use
    (st st1 : HubState) (out1 : List (String × String))
    (now : Nat) (welcome tid code : String) (d : LinkData)
    (hlook : lookupCode st.linkCodes code = some d)
    (hexp : now < d.expires)
    (hstep : handleLink now welcome tid code st = (st1, out1)) :
    out1 = [(tid, welcome)] ∧
    (∃ u, findOne st1.db d.username = some u ∧ u.wallet = d.username ∧
      u.telegramId = some tid) ∧
    lookupCode st1.linkCodes code = none ∧
    ∀ now2 welcome2 tid2,
      handleLink now2 welcome2 tid2 code st1 = (st1, [(tid2, linkRejection)]) := by
  rw [handleLink, hlook] at hstep
  simp only [if_pos hexp, Prod.mk.injEq] at hstep
  obtain ⟨hst1, hout1⟩ := hstep
  subst hst1
  refine ⟨hout1.symm, findOne_setTelegramIdUpsert st.db d.username tid, ?_, ?_⟩
  · exact lookupCode_eraseCode_self st.linkCodes code
  · intro now2 welcome2 tid2
    rw [handleLink]
    simp [lookupCode_eraseCode_self st.linkCodes code]

/-- Witness for claim C1 at a concrete state: the code 123456 owned by A
redeems once at time 0, and the second redemption at time 7 is rejected
with the state unchanged. -/
theorem claim_C1_witness :
    lookupCode c1State.linkCodes "123456" = some { username := "A", expires := 100 } ∧
    (0 : Nat) < 100 ∧
    handleLink 7 "again" "666" "123456" (handleLink 0 "welcome" "555" "123456" c1State).1
      = ((handleLink 0 "welcome" "555" "123456" c1State).1, [("666", linkRejection)]) :=
  ⟨rfl, by decide,
    (claim_C1_link_code_single_use c1State
      (handleLink 0 "welcome" "555" "123456" c1State).1
      (handleLink 0 "welcome" "555" "123456" c1State).2
      0 "welcome" "555" "123456" { username := "A", expires := 100 }
      rfl (by decide) rfl).2.2.2 7 "again" "666"⟩

/-- Claim C2: a linking code issued at time T is stored with expiry
exactly T plus five minutes; redeeming it at any time t with T ≤ t below
the expiry succeeds, replying with the welcome text and binding the
external identity to the owner wallet, and redeeming at any t at or after
the expiry is rejected with no state change. -/
theorem claim_C2_link_code_expiry_window
    (codes : LinkCodes) (db : UserDB) (w code tid welcome : String) (T t : Nat)
    (hT : T ≤ t) :
    lookupCode (issueLinkCode T code w codes) code =
      some { username := w, expires := T + 5 * 60 * 1000 } ∧
    (t < T + 5 * 60 * 1000 →
      (handleLink t welcome tid code
        { db := db, linkCodes := issueLinkCode T code w codes }).2 = [(tid, welcome)] ∧
      ∃ u, findOne (handleLink t welcome tid code
          { db := db, linkCodes := issueLinkCode T code w codes }).1.db w = some u ∧
        u.wallet = w ∧ u.telegramId = some tid) ∧
    (T + 5 * 60 * 1000 ≤ t →
      handleLink t welcome tid code { db := db, linkCodes := issueLinkCode T code w codes }
        = ({ db := db, linkCodes := issueLinkCode T code w codes },
           [(tid, linkRejection)])) := by
  refine ⟨lookupCode_issueLinkCode T code w codes, ?_, ?_⟩
  · intro hlt
    rw [handleLink, lookupCode_issueLinkCode T code w codes]
    simp only [if_pos hlt]
    exact ⟨trivial, findOne_setTelegramIdUpsert db w tid⟩
  · intro hge
    rw [handleLink, lookupCode_issueLinkCode T code w codes]
    simp only [if_neg (Nat.not_lt.mpr hge)]

/-- Witness for claim C2: code 111111 issued at time 0 carries expiry
300000 and redeems successfully at time 10. -/
theorem claim_C2_witness :
    (0 : Nat) ≤ 10 ∧
    lookupCode (issueLinkCode 0 "111111" "A" []) "111111" =
      some { username := "A", expires := 0 + 5 * 60 * 1000 } ∧
    (handleLink 10 "hi" "5" "111111"
      { db := [], linkCodes := issueLinkCode 0 "111111" "A" [] }).2 = [("5", "hi")] :=
  ⟨by decide,
    (claim_C2_link_code_expiry_window [] [] "A" "111111" "5" "hi" 0 10 (by decide)).1,
    ((claim_C2_link_code_expiry_window [] [] "A" "111111" "5" "hi" 0 10 (by decide)).2.1
      (by decide)).1⟩

/-- Claim C3 counterexample: after the reachable operation sequence in
which wallet A issues and redeems a code from external id 555 and wallet
B then issues and redeems a second code from the same external id 555,
two distinct user records hold the same externalId, refuting the claimed
uniqueness invariant. -/
theorem claim_C3_counterexample : ¬ externalIdUniqueProp c3State2.db := by decide

/-- Claim C3 as amended: redemption upserts the owner record, setting its
telegramId to the redeeming external identity, and leaves every record of
a different wallet untouched; in particular it never clears that external
identity from other wallet records, so several wallets may hold the same
externalId simultaneously. -/
theorem claim_C3_amended_link_binds_owner_only (db : UserDB) (w tid : String) :
    (∃ u, findOne (setTelegramIdUpsert db w tid) w = some u ∧
      u.wallet = w ∧ u.telegramId = some tid) ∧
    ∀ v ∈ setTelegramIdUpsert db w tid, v.wallet ≠ w → v ∈ db :=
  ⟨findOne_setTelegramIdUpsert db w tid, mem_setTelegramIdUpsert_of_ne⟩

/-- Witness for the amended claim C3: binding B to 555 in a directory
where A already holds 555 keeps the A record as it was. -/
theorem claim_C3_witness :
    ({ wallet := "A", telegramId := some "555", todos := [] } : UserRecord) ∈
      setTelegramIdUpsert [{ wallet := "A", telegramId := some "555", todos := [] }] "B" "555" ∧
    ({ wallet := "A", telegramId := some "555", todos := [] } : UserRecord).wallet ≠ "B" ∧
    ({ wallet := "A", telegramId := some "555", todos := [] } : UserRecord) ∈
      ([{ wallet := "A", telegramId := some "555", todos := [] }] : UserDB) :=
  ⟨by decide, by decide,
    (claim_C3_amended_link_binds_owner_only
      [{ wallet := "A", telegramId := some "555", todos := [] }] "B" "555").2
      { wallet := "A", telegramId := some "555", todos := [] } (by decide) (by decide)⟩

/- ------------------------------------------------------------------ -/
/- Task list lemmas                                                   -/
/- ------------------------------------------------------------------ -/

theorem findOne_wallet_eq {db : UserDB} {w : String} {u : UserRecord}
    (h : findOne db w = some u) : u.wallet = w := by
  induction db with
  | nil => simp [findOne] at h
  | cons v vs ih =>
    by_cases hv : v.wallet = w
    · rw [findOne, if_pos hv] at h
      cases h
      exact hv
    · rw [findOne, if_neg hv] at h
      exact ih h

theorem findOne_saveUser {db : UserDB} {w : String} {u v : UserRecord}
    (h : findOne db w = some u) (hv : v.wallet = w) :
    findOne (saveUser db v) w = some v := by
  induction db with
  | nil => simp [findOne] at h
  | cons x xs ih =>
    by_cases hx : x.wallet = w
    · rw [saveUser, if_pos (by rw [hx, hv]), findOne, if_pos hv]
    · rw [findOne, if_neg hx] at h
      rw [saveUser, if_neg (by rw [hv]; exact hx), findOne, if_neg hx]
      exact ih h

theorem saveUser_saveUser {db : UserDB} {v v2 : UserRecord}
    (h : v.wallet = v2.wallet) : saveUser (saveUser db v) v2 = saveUser db v2 := by
  induction db with
  | nil => rfl
  | cons x xs ih =>
    by_cases hx : x.wallet = v.wallet
    · simp [saveUser, hx, h, hx.trans h]
    · have hx2 : ¬ x.wallet = v2.wallet := fun hc => hx (hc.trans h.symm)
      simp [saveUser, hx, hx2, ih]

theorem saveUser_self {db : UserDB} {w : String} {u : UserRecord}
    (h : findOne db w = some u) : saveUser db u = db := by
  induction db with
  | nil => rfl
  | cons x xs ih =>
    by_cases hx : x.wallet = w
    · rw [findOne, if_pos hx] at h
      cases h
      rw [saveUser, if_pos rfl]
    · rw [findOne, if_neg hx] at h
      rw [saveUser, if_neg (by rw [findOne_wallet_eq h]; exact hx), ih h]

theorem mem_saveUser_of_wallet_ne {db : UserDB} {u v : UserRecord}
    (hv : v ∈ saveUser db u) (hne : v.wallet ≠ u.wallet) : v ∈ db := by
  induction db with
  | nil => simpa [saveUser] using hv
  | cons x xs ih =>
    by_cases hx : x.wallet = u.wallet
    · rw [saveUser, if_pos hx] at hv
      rcases List.mem_cons.mp hv with h | h
      · exact absurd (h ▸ rfl) hne
      · exact List.mem_cons_of_mem x h
    · rw [saveUser, if_neg hx] at hv
      rcases List.mem_cons.mp hv with h | h
      · exact h ▸ List.mem_cons_self x xs
      · exact List.mem_cons_of_mem x (ih h)

theorem findTask_toggleFirst {ts : List Task} {i : Nat} {t : Task}
    (h : findTask ts i = some t) :
    findTask (toggleFirst ts i) i = some { t with done := !t.done } := by
  induction ts with
  | nil => simp [findTask] at h
  | cons x xs ih =>
    by_cases hx : x.id = i
    · rw [findTask, if_pos hx] at h
      cases h
      rw [toggleFirst, if_pos hx, findTask, if_pos hx]
    · rw [findTask, if_neg hx] at h
      rw [toggleFirst, if_neg hx, findTask, if_neg hx]
      exact ih h

theorem toggleFirst_toggleFirst (ts : List Task) (i : Nat) :
    toggleFirst (toggleFirst ts i) i = ts := by
  induction ts with
  | nil => rfl
  | cons x xs ih =>
    by_cases hx : x.id = i
    · rw [toggleFirst, if_pos hx, toggleFirst, if_pos hx]
      cases x
      simp
    · rw [toggleFirst, if_neg hx, toggleFirst, if_neg hx, ih]

theorem findTask_append {pre post : List Task} {t : Task} {i : Nat}
    (hpre : ∀ x ∈ pre, x.id ≠ i) (ht : t.id = i) :
    findTask (pre ++ t :: post) i = some t := by
  induction pre with
  | nil => rw [List.nil_append, findTask, if_pos ht]
  | cons x xs ih =>
    rw [List.cons_append, findTask, if_neg (hpre x (List.mem_cons_self x xs))]
    exact ih (fun y hy => hpre y (List.mem_cons_of_mem x hy))

theorem toggleFirst_append {pre post : List Task} {t : Task} {i : Nat}
    (hpre : ∀ x ∈ pre, x.id ≠ i) (ht : t.id = i) :
    toggleFirst (pre ++ t :: post) i = pre ++ { t with done := !t.done } :: post := by
  induction pre with
  | nil => rw [List.nil_append, toggleFirst, if_pos ht, List.nil_append]
  | cons x xs ih =>
    rw [List.cons_append, toggleFirst, if_neg (hpre x (List.mem_cons_self x xs)),
      List.cons_append, ih (fun y hy => hpre y (List.mem_cons_of_mem x hy))]

theorem listTasks_pushTodoUpsert (db : UserDB) (w : String) (todo : Task) :
    listTasks (pushTodoUpsert db w todo) w = listTasks db w ++ [todo] := by
  induction db with
  | nil => simp [pushTodoUpsert, listTasks, findOne]
  | cons u us ih =>
    by_cases h : u.wallet = w
    · simp [pushTodoUpsert, h, listTasks, findOne]
    · simp only [pushTodoUpsert, if_neg h]
      simp only [listTasks, findOne, if_neg h]
      exact ih

/- ------------------------------------------------------------------ -/
/- Claims C4, C5, C6                                                  -/
/- ------------------------------------------------------------------ -/

/-- Claim C4: while a UI connection is unauthenticated (ws.username still
null), every inbound request kind other than LOGIN is silently ignored:
the handler returns with the session and hub state unchanged, no reply,
no broadcast and no gateway forward. -/
theorem claim_C4_unauthenticated_ignored
    (impl : List Nat → List Nat → List Nat → Bool) (now freshId : Nat)
    (freshCode : String) (dbOk : Bool) (chatReply : String)
    (gatewayConnected gatewayOpen : Bool) (sess : Session) (st : HubState)
    (msg : UIMsg) (hun : sess.username = none) (hmsg : isLoginMsg msg = false) :
    handleUIMessage impl now freshId freshCode dbOk chatReply
      gatewayConnected gatewayOpen sess st msg = ⟨sess, st, [], none, []⟩ := by
  cases msg with
  | login pk sig m => simp [isLoginMsg] at hmsg
  | generateLinkCode => simp [handleUIMessage, hun]
  | addTodo text => simp [handleUIMessage, hun]
  | toggleTodo i => simp [handleUIMessage, hun]
  | getTodos => simp [handleUIMessage, hun]
  | sendChat text => simp [handleUIMessage, hun]

/-- Witness for claim C4: an unauthenticated GENERATE_LINK_CODE request
leaves everything untouched and sends nothing. -/
theorem claim_C4_witness :
    (Session.mk none).username = none ∧
    isLoginMsg UIMsg.generateLinkCode = false ∧
    handleUIMessage alwaysVerify 0 0 "000000" true "r" true true
      (Session.mk none) (HubState.mk [] []) UIMsg.generateLinkCode
      = ⟨Session.mk none, HubState.mk [] [], [], none, []⟩ :=
  ⟨rfl, rfl,
    claim_C4_unauthenticated_ignored alwaysVerify 0 0 "000000" true "r" true true
      (Session.mk none) (HubState.mk [] []) UIMsg.generateLinkCode rfl rfl⟩

/-- Claim C5 counterexample: task ids are Date.now() readings, so two
ADD_TODO requests handled within the same millisecond append two tasks
with the same id to the same list, refuting id freshness and uniqueness
within a user task list. -/
theorem claim_C5_counterexample :
    ¬ ((listTasks c5Result2.hub.db "w").map Task.id).Nodup := by decide

/-- Claim C5 as amended: ADD_TODO appends a task built from the current
wall-clock reading as id, the given text and done false, upserting the
record, and a subsequent GET_TODOS lists the appended task last with done
false; ids are only as fresh as the clock, so appends sharing a
millisecond produce duplicate ids. -/
theorem claim_C5_amended_append_then_list (db : UserDB) (w txt : String) (i : Nat) :
    listTasks (pushTodoUpsert db w { id := i, text := txt, done := false }) w =
      listTasks db w ++ [{ id := i, text := txt, done := false }] ∧
    (∀ impl now freshCode dbOk chatReply gc go sess st, (sess : Session).username = some w →
      handleUIMessage impl now i freshCode dbOk chatReply gc go sess st (UIMsg.addTodo txt)
        = ⟨sess, { st with db := pushTodoUpsert st.db w { id := i, text := txt, done := false } },
           [], some w, []⟩) := by
  refine ⟨listTasks_pushTodoUpsert db w _, ?_⟩
  intro impl now freshCode dbOk chatReply gc go sess st hsess
  simp [handleUIMessage, hsess]

/-- Witness for the amended claim C5: an authenticated buy-milk append at
clock value 3 lands in the listed tasks with done false. -/
theorem claim_C5_witness :
    listTasks (pushTodoUpsert [] "w" { id := 3, text := "buy milk", done := false }) "w" =
      listTasks [] "w" ++ [{ id := 3, text := "buy milk", done := false }] ∧
    handleUIMessage alwaysVerify 0 3 "000000" true "r" true true
      (Session.mk (some "w")) (HubState.mk [] []) (UIMsg.addTodo "buy milk")
      = ⟨Session.mk (some "w"),
         HubState.mk (pushTodoUpsert [] "w" { id := 3, text := "buy milk", done := false }) [],
         [], some "w", []⟩ :=
  ⟨(claim_C5_amended_append_then_list [] "w" "buy milk" 3).1,
    (claim_C5_amended_append_then_list [] "w" "buy milk" 3).2
      alwaysVerify 0 "000000" true "r" true true
      (Session.mk (some "w")) (HubState.mk [] []) rfl⟩

/-- Claim C6: TOGGLE_TODO toggling twice restores the directory exactly;
a missing wallet or missing task id is a no-op reporting no broadcast;
toggling an existing task id flips the done flag of the first task
carrying that id, leaves every other task and every other wallet record
unchanged, and the handler sends no reply and broadcasts exactly when a
task was found. -/
theorem claim_C6_toggle_semantics (db : UserDB) (w : String) (i : Nat) :
    (toggleTodoOp (toggleTodoOp db w i).1 w i).1 = db ∧
    (findOne db w = none → toggleTodoOp db w i = (db, false)) ∧
    (∀ u, findOne db w = some u → findTask u.todos i = none →
      toggleTodoOp db w i = (db, false)) ∧
    (∀ u pre t post, findOne db w = some u → u.todos = pre ++ t :: post →
      t.id = i → (∀ x ∈ pre, x.id ≠ i) →
      (toggleTodoOp db w i).2 = true ∧
      findOne (toggleTodoOp db w i).1 w =
        some { u with todos := pre ++ { t with done := !t.done } :: post } ∧
      ∀ v ∈ (toggleTodoOp db w i).1, v.wallet ≠ w → v ∈ db) ∧
    (∀ impl now freshId freshCode dbOk chatReply gc go sess st,
      (sess : Session).username = some w →
      handleUIMessage impl now freshId freshCode dbOk chatReply gc go sess st (UIMsg.toggleTodo i)
        = ⟨sess, { st with db := (toggleTodoOp st.db w i).1 }, [],
           if (toggleTodoOp st.db w i).2 then some w else none, []⟩) := by
  refine ⟨?_, ?_, ?_, ?_, ?_⟩
  · rcases h : findOne db w with _ | u
    · simp [toggleTodoOp, h]
    · rcases h2 : findTask u.todos i with _ | t
      · simp [toggleTodoOp, h, h2]
      · have hw : u.wallet = w := findOne_wallet_eq h
        have hfind2 : findOne (saveUser db { u with todos := toggleFirst u.todos i }) w
            = some { u with todos := toggleFirst u.todos i } := findOne_saveUser h hw
        have hft2 : findTask (toggleFirst u.todos i) i = some { t with done := !t.done } :=
          findTask_toggleFirst h2
        simp only [toggleTodoOp, h, h2, hfind2, hft2]
        rw [toggleFirst_toggleFirst]
        have h3 : saveUser (saveUser db { u with todos := toggleFirst u.todos i })
            { u with todos := u.todos } = saveUser db { u with todos := u.todos } :=
          saveUser_saveUser rfl
        exact h3.trans (saveUser_self h)
  · intro h
    simp [toggleTodoOp, h]
  · intro u h h2
    simp [toggleTodoOp, h, h2]
  · intro u pre t post h htodos hid hpre
    have hw : u.wallet = w := findOne_wallet_eq h
    have hft : findTask u.todos i = some t := by
      rw [htodos]; exact findTask_append hpre hid
    have hstep : toggleTodoOp db w i =
        (saveUser db { u with todos := toggleFirst u.todos i }, true) := by
      simp [toggleTodoOp, h, hft]
    rw [hstep]
    refine ⟨rfl, ?_, ?_⟩
    · have heq : toggleFirst u.todos i = pre ++ { t with done := !t.done } :: post := by
        rw [htodos]; exact toggleFirst_append hpre hid
      have hfo : findOne (saveUser db { u with todos := toggleFirst u.todos i }) w
          = some { u with todos := toggleFirst u.todos i } := findOne_saveUser h hw
      rw [hfo, heq]
    · intro v hv hvne
      exact mem_saveUser_of_wallet_ne hv (fun hc => hvne (hc.trans hw))
  · intro impl now freshId freshCode dbOk chatReply gc go sess st hsess
    simp [handleUIMessage, hsess]

/-- Witness for claim C6 on a one-task directory: the toggle reports a
broadcast and toggling twice restores the directory. -/
theorem claim_C6_witness :
    findOne c6Db "w" =
      some { wallet := "w", telegramId := none, todos := [⟨5, "a", false⟩] } ∧
    (toggleTodoOp (toggleTodoOp c6Db "w" 5).1 "w" 5).1 = c6Db ∧
    (toggleTodoOp c6Db "w" 5).2 = true :=
  ⟨rfl, (claim_C6_toggle_semantics c6Db "w" 5).1,
    ((claim_C6_toggle_semantics c6Db "w" 5).2.2.2.1
      { wallet := "w", telegramId := none, todos := [⟨5, "a", false⟩] }
      [] ⟨5, "a", false⟩ [] rfl rfl rfl (by simp)).1⟩

/- ------------------------------------------------------------------ -/
/- Claims C7, C8, C9, C10                                             -/
/- ------------------------------------------------------------------ -/

theorem mem_sendToClients {payload : Outbound} {uname : String}
    {clients : List Client} {c : Client}
    (hc : c ∈ clients) (hopen : c.readyStateOpen = true)
    (hname : c.username = some uname) :
    (c, payload) ∈ sendToClients payload uname clients := by
  induction clients with
  | nil => simp at hc
  | cons x xs ih =>
    rcases List.mem_cons.mp hc with h | h
    · subst h
      rw [sendToClients, if_pos ⟨hopen, hname⟩]
      exact List.mem_cons_self _ _
    · by_cases hx : x.readyStateOpen = true ∧ x.username = some uname
      · rw [sendToClients, if_pos hx]
        exact List.mem_cons_of_mem _ (ih h)
      · rw [sendToClients, if_neg hx]
        exact ih h

theorem sendToClients_mem {payload : Outbound} {uname : String}
    {clients : List Client} {c : Client} {p : Outbound}
    (hmem : (c, p) ∈ sendToClients payload uname clients) :
    c ∈ clients ∧ c.readyStateOpen = true ∧ c.username = some uname ∧ p = payload := by
  induction clients with
  | nil => simp [sendToClients] at hmem
  | cons x xs ih =>
    by_cases hx : x.readyStateOpen = true ∧ x.username = some uname
    · rw [sendToClients, if_pos hx] at hmem
      rcases List.mem_cons.mp hmem with h | h
      · rw [Prod.mk.injEq] at h
        obtain ⟨h1, h2⟩ := h
        subst h1
        subst h2
        exact ⟨List.mem_cons_self _ xs, hx.1, hx.2, rfl⟩
      · obtain ⟨m1, m2, m3, m4⟩ := ih h
        exact ⟨List.mem_cons_of_mem x m1, m2, m3, m4⟩
    · rw [sendToClients, if_neg hx] at hmem
      obtain ⟨m1, m2, m3, m4⟩ := ih hmem
      exact ⟨List.mem_cons_of_mem x m1, m2, m3, m4⟩

/-- Claim C7: broadcastState delivers the STATE_UPDATE payload carrying
the current tasks of the wallet to every registered open client bound to
that wallet, delivers nothing to any client that is closed, unbound or
bound to a different wallet, and delivers nothing at all when the target
username is null. -/
theorem claim_C7_broadcast_exact (db : UserDB) (w : String) (clients : List Client) :
    (∀ c ∈ clients, c.readyStateOpen = true → c.username = some w →
      (c, Outbound.stateUpdate (listTasks db w)) ∈ broadcastState db (some w) clients) ∧
    (∀ c p, (c, p) ∈ broadcastState db (some w) clients →
      c ∈ clients ∧ c.readyStateOpen = true ∧ c.username = some w ∧
      p = Outbound.stateUpdate (listTasks db w)) ∧
    broadcastState db none clients = [] := by
  refine ⟨?_, ?_, rfl⟩
  · intro c hc hopen hname
    exact mem_sendToClients hc hopen hname
  · intro c p hmem
    exact sendToClients_mem hmem

/-- Witness for claim C7: among four clients, exactly the open client
bound to w receives the payload, and a delivery implies being open and
bound to w. -/
theorem claim_C7_witness :
    (Client.mk true (some "w")) ∈
      ([Client.mk true (some "w"), Client.mk false (some "w"),
        Client.mk true none, Client.mk true (some "v")] : List Client) ∧
    (Client.mk true (some "w"), Outbound.stateUpdate (listTasks [] "w")) ∈
      broadcastState [] (some "w")
        [Client.mk true (some "w"), Client.mk false (some "w"),
         Client.mk true none, Client.mk true (some "v")] :=
  ⟨by decide,
    (claim_C7_broadcast_exact [] "w"
      [Client.mk true (some "w"), Client.mk false (some "w"),
       Client.mk true none, Client.mk true (some "v")]).1
      (Client.mk true (some "w")) (by decide) rfl rfl⟩

/-- Claim C8: verifySolanaSignature is a total boolean function of its
three string inputs: every thrown error (non-base58 key, signature not
hex-decoding to 64 bytes, key not 32 bytes) is caught and yields false,
and otherwise the result is exactly the ed25519 core check on the decoded
values; the embedding is a pure function, so it has no side effects. -/
theorem claim_C8_verify_total (impl : List Nat → List Nat → List Nat → Bool)
    (pk sig msg : String) :
    (∀ e, bs58Decode pk = Except.error e →
      verifySolanaSignature impl pk sig msg = false) ∧
    ((nodeHexBytes sig.toList).length ≠ 64 →
      verifySolanaSignature impl pk sig msg = false) ∧
    (∀ pkBytes, bs58Decode pk = Except.ok pkBytes → pkBytes.length ≠ 32 →
      verifySolanaSignature impl pk sig msg = false) ∧
    (verifySolanaSignature impl pk sig msg = false ∨
      ∃ pkBytes, bs58Decode pk = Except.ok pkBytes ∧ pkBytes.length = 32 ∧
        (nodeHexBytes sig.toList).length = 64 ∧
        verifySolanaSignature impl pk sig msg =
          impl (utf8Bytes msg) (nodeHexBytes sig.toList) pkBytes) := by
  rcases hdec : bs58Decode pk with e | pkBytes
  · have hfalse : verifySolanaSignature impl pk sig msg = false := by
      simp [verifySolanaSignature, verifySolanaSignatureE, hdec]
    refine ⟨fun _ _ => hfalse, fun _ => hfalse, fun pkb hpkb _ => ?_, Or.inl hfalse⟩
    simp [hdec] at hpkb
  · by_cases hsig : (nodeHexBytes sig.toList).length = 64
    · by_cases hpk : pkBytes.length = 32
      · refine ⟨fun e2 he => ?_, fun hne => absurd hsig hne, fun pkb hpkb hne => ?_,
          Or.inr ⟨pkBytes, ?_, hpk, hsig, ?_⟩⟩
        · simp [hdec] at he
        · simp [hdec] at hpkb
          subst hpkb
          exact absurd hpk hne
        · simp [hdec]
        · have hsig2 : (nodeHexBytes sig.data).length = 64 := hsig
          simp [verifySolanaSignature, verifySolanaSignatureE, hdec,
            naclDetachedVerify, hsig2, hpk]
      · have hfalse : verifySolanaSignature impl pk sig msg = false := by
          have hsig2 : (nodeHexBytes sig.data).length = 64 := hsig
          simp [verifySolanaSignature, verifySolanaSignatureE, hdec,
            naclDetachedVerify, hsig2, hpk]
        exact ⟨fun _ _ => hfalse, fun _ => hfalse, fun _ _ _ => hfalse, Or.inl hfalse⟩
    · have hfalse : verifySolanaSignature impl pk sig msg = false := by
        have hsig2 : ¬ (nodeHexBytes sig.data).length = 64 := hsig
        simp [verifySolanaSignature, verifySolanaSignatureE, hdec,
          naclDetachedVerify, hsig2]
      exact ⟨fun _ _ => hfalse, fun _ => hfalse, fun _ _ _ => hfalse, Or.inl hfalse⟩

/-- Witness for claim C8: the character 0 is outside the base-58
alphabet, so verification with any core returns false rather than
propagating the decode error. -/
theorem claim_C8_witness :
    bs58Decode "0" = Except.error "Non-base58 character" ∧
    verifySolanaSignature alwaysVerify "0" "00" "hello" = false :=
  ⟨rfl, (claim_C8_verify_total alwaysVerify "0" "00" "hello").1
    "Non-base58 character" rfl⟩

/-- Claim C9 counterexample: no handler validates task text.  An
authenticated ADD_TODO carrying the empty string stores a task with empty
text, and a gateway /todo command whose remainder trims to nothing does
the same for the linked wallet. -/
theorem claim_C9_counterexample :
    ((Task.mk 7 "" false ∈ listTasks c9UIStep.hub.db "w") ∧
      (Task.mk 7 "" false).text = "") ∧
    Task.mk 7 "" false ∈ listTasks c9GatewayStep.hub.db "w" := by decide

/-- Claim C9 as amended: task text is stored verbatim with no
non-emptiness validation.  ADD_TODO stores exactly the client-supplied
text, and /todo stores exactly the trimmed remainder of the command, so
an empty client string or a whitespace-only remainder creates a task with
empty text. -/
theorem claim_C9_amended_text_stored_verbatim
    (txt w : String) (freshId : Nat) :
    (∀ impl now freshCode dbOk chatReply gc go sess st, (sess : Session).username = some w →
      (handleUIMessage impl now freshId freshCode dbOk chatReply gc go sess st
        (UIMsg.addTodo txt)).hub.db =
        pushTodoUpsert st.db w { id := freshId, text := txt, done := false }) ∧
    (∀ now welcome ackReply aiReply moltReply sender tid st u cmd,
      tid ≠ "" → cmd = "/todo " ++ txt →
      strStartsWith cmd "/molt " = false → strStartsWith cmd "/link " = false →
      strStartsWith cmd "/todo " = true →
      findByTelegramId (st : HubState).db tid = some u →
      (handleGatewayMessage now freshId welcome ackReply aiReply moltReply sender
        tid cmd st).hub.db =
        pushTodoNoUpsert st.db u.wallet
          { id := freshId, text := strTrim (strDrop cmd 6), done := false }) := by
  constructor
  · intro impl now freshCode dbOk chatReply gc go sess st hsess
    simp [handleUIMessage, hsess]
  · intro now welcome ackReply aiReply moltReply sender tid st u cmd
    intro htid hcmd hmolt hlink htodo hfind
    have hne : ¬ (cmd = "" ∨ tid = "") := by
      rintro (hc | ht)
      · rw [hc] at htodo
        exact absurd htodo (by decide)
      · exact htid ht
    rw [handleGatewayMessage, if_neg hne, hfind]
    simp [hmolt, hlink, htodo]

/-- Witness for the amended claim C9: the command remainder of
/todo followed by blanks trims to the empty string and is stored as the
task text for the linked wallet w. -/
theorem claim_C9_witness :
    findByTelegramId c9Db "5" =
      some { wallet := "w", telegramId := some "5", todos := [] } ∧
    strStartsWith "/todo   " "/todo " = true ∧
    (handleGatewayMessage 0 7 "wl" "ack" "ai" "m" "s" "5" "/todo   "
      { db := c9Db, linkCodes := [] }).hub.db =
      pushTodoNoUpsert c9Db "w"
        { id := 7, text := strTrim (strDrop "/todo   " 6), done := false } :=
  ⟨rfl, by decide,
    (claim_C9_amended_text_stored_verbatim "  " "w" 7).2 0 "wl" "ack" "ai" "m" "s" "5"
      { db := c9Db, linkCodes := [] }
      { wallet := "w", telegramId := some "5", todos := [] } "/todo   "
      (by decide) rfl (by decide) (by decide) (by decide) rfl⟩

/-- Claim C10: on a LOGIN whose signature verifies but whose storage
lookup/creation fails, ws.username is already set before the storage
call, so the handler replies LOGIN_FAIL yet leaves the session bound to
the wallet, with the hub state unchanged; every later request on that
session is then treated as authenticated, for example GET_TODOS is
answered with a STATE_UPDATE instead of being ignored. -/
theorem claim_C10_login_binds_before_storage
    (impl : List Nat → List Nat → List Nat → Bool) (now freshId : Nat)
    (freshCode chatReply : String) (gc go : Bool)
    (sess : Session) (st : HubState) (pk sig m : String)
    (hver : verifySolanaSignature impl pk sig m = true) :
    (handleUIMessage impl now freshId freshCode false chatReply gc go sess st
      (UIMsg.login pk sig m)).sess.username = some pk ∧
    (handleUIMessage impl now freshId freshCode false chatReply gc go sess st
      (UIMsg.login pk sig m)).replies = [Outbound.loginFail dbErrorMessage] ∧
    (handleUIMessage impl now freshId freshCode false chatReply gc go sess st
      (UIMsg.login pk sig m)).hub = st ∧
    ∀ now2 freshId2 freshCode2 dbOk2 chatReply2 gc2 go2 st2,
      (handleUIMessage impl now2 freshId2 freshCode2 dbOk2 chatReply2 gc2 go2
        (handleUIMessage impl now freshId freshCode false chatReply gc go sess st
          (UIMsg.login pk sig m)).sess st2 UIMsg.getTodos).replies
        = [Outbound.stateUpdate (listTasks st2.db pk)] := by
  have hstep : handleUIMessage impl now freshId freshCode false chatReply gc go sess st
      (UIMsg.login pk sig m)
      = ⟨{ sess with username := some pk }, st, [Outbound.loginFail dbErrorMessage],
         none, []⟩ := by
    simp [handleUIMessage, hver]
  rw [hstep]
  refine ⟨rfl, rfl, rfl, ?_⟩
  intro now2 freshId2 freshCode2 dbOk2 chatReply2 gc2 go2 st2
  simp [handleUIMessage]

/-- Witness for claim C10: a key of 32 base-58 one digits and a signature
of 128 zero hex digits decode to well-sized byte strings, so with the
accepting core the verification succeeds; with the storage call failing,
the session still ends bound to the wallet. -/
theorem claim_C10_witness :
    verifySolanaSignature alwaysVerify "11111111111111111111111111111111"
      (String.mk (List.replicate 128 '0')) "Login Test" = true ∧
    (handleUIMessage alwaysVerify 0 0 "000000" false "r" true true
      (Session.mk none) (HubState.mk [] [])
      (UIMsg.login "11111111111111111111111111111111"
        (String.mk (List.replicate 128 '0')) "Login Test")).sess.username
      = some "11111111111111111111111111111111" :=
  ⟨by decide,
    (claim_C10_login_binds_before_storage alwaysVerify 0 0 "000000" "r" true true
      (Session.mk none) (HubState.mk [] []) "11111111111111111111111111111111"
      (String.mk (List.replicate 128 '0')) "Login Test" (by decide)).1⟩

end AlonClawd
